import Mathlib

/-!
Verification development for the NaAPI configuration tool
(`NaAPICodex.py`).  The file embeds the configuration read/merge/write
core (`ConfigTool.load_codex`, `ConfigTool.load_claude`,
`ConfigTool.write_codex`, `ConfigTool.write_claude`, `ConfigTool._toml_get`,
`ConfigTool._confirm_overwrite`, `ConfigTool._save_text`,
`ConfigTool._save_json`) as executable Lean definitions and proves the
behavioural properties stated about it.

Modelling conventions:
* The tool only ever touches three fixed paths (`~/.codex/config.toml`,
  `~/.codex/auth.json`, `~/.claude/settings.json`), so the filesystem is a
  record with one optional slot per path; `none` means the file does not
  exist.
* The two JSON files are stored as parsed JSON documents (writing with
  `json.dump` and re-reading with `json.loads` is the identity on such
  documents).  JSON values are modelled to the depth the program inspects:
  a top-level object whose values are scalars or one nested object of
  scalars.  Python whitespace is modelled by its ASCII fragment.
* The GUI confirmation dialogs (`messagebox.askyesno`) are collaborators
  returning a boolean; they enter the model as boolean parameters.
-/

/-- ASCII fragment of Python's `\s` / `str.strip` whitespace. -/
def isPySpace (c : Char) : Bool :=
  c = ' ' || c = '\t' || c = '\n' || c = '\r' || c = '\x0b' || c = '\x0c'

/-- Character-list core of Python's `str.strip()`: drop whitespace from
both ends. -/
def stripChars (cs : List Char) : List Char :=
  (((cs.dropWhile isPySpace).reverse.dropWhile isPySpace)).reverse

/-- Python's `str.strip()` (ASCII whitespace). -/
def pyStrip (s : String) : String :=
  String.mk (stripChars s.data)

/-- Python's `str.startswith("sk-")` as used on the trimmed API key. -/
def startsWithSk (s : String) : Bool :=
  List.isPrefixOf "sk-".data s.data

/-- A JSON scalar as decoded by `json.loads`: string, integer, boolean or
null.  (Floats and arrays never occur in the files this program writes and
are outside the model.) -/
inductive PyScalar where
  | vstr (s : String)
  | vint (n : Int)
  | vbool (b : Bool)
  | vnull
  deriving DecidableEq, Repr

/-- Python `str()` of a decoded JSON scalar. -/
def pyStr : PyScalar → String
  | .vstr s => s
  | .vint n => toString n
  | .vbool true => "True"
  | .vbool false => "False"
  | .vnull => "None"

/-- Python truthiness of a decoded JSON scalar. -/
def scalarTruthy : PyScalar → Bool
  | .vstr s => s != ""
  | .vint n => n != 0
  | .vbool b => b
  | .vnull => false

/-- A value stored under a top-level key of one of the JSON documents:
either a scalar or a (string-keyed) object of scalars - the depth the
program inspects. -/
inductive PyField where
  | fscalar (v : PyScalar)
  | fobj (kvs : List (String × PyScalar))
  deriving DecidableEq, Repr

/-- Python truthiness of a top-level JSON value. -/
def fieldTruthy : PyField → Bool
  | .fscalar v => scalarTruthy v
  | .fobj kvs => !kvs.isEmpty

/-- A parsed JSON document (`json.loads` result): an object, or any
non-object top-level value (on which `.get` raises). -/
inductive PyJson where
  | jobj (fields : List (String × PyField))
  | jscalar (v : PyScalar)
  deriving DecidableEq, Repr

/-- Python `dict.get k` on a scalar-valued object.  A JSON `null` value
decodes to Python `None`, which `get` also returns when the key is
missing, so both cases collapse to `none`. -/
def pyGetScalar (kvs : List (String × PyScalar)) (k : String) : Option PyScalar :=
  match kvs.lookup k with
  | some .vnull => none
  | some v => some v
  | none => none

/-- Python `dict.get k` on a top-level JSON object (null collapses to
`none` exactly as in `pyGetScalar`). -/
def pyGetField (kvs : List (String × PyField)) (k : String) : Option PyField :=
  match kvs.lookup k with
  | some (.fscalar .vnull) => none
  | some v => some v
  | none => none

/-- `(d.get(k) or "").strip()` on an env object of scalars.  `none` means
the Python expression raises (`.strip()` on a truthy non-string). -/
def getStrippedScalar (kvs : List (String × PyScalar)) (k : String) : Option String :=
  match pyGetScalar kvs k with
  | none => some ""
  | some v =>
    if scalarTruthy v then
      match v with
      | .vstr s => some (pyStrip s)
      | _ => none
    else some ""

/-- `(d.get(k) or "").strip()` on a top-level JSON object.  `none` means
the Python expression raises. -/
def getStrippedField (kvs : List (String × PyField)) (k : String) : Option String :=
  match pyGetField kvs k with
  | none => some ""
  | some v =>
    if fieldTruthy v then
      match v with
      | .fscalar (.vstr s) => some (pyStrip s)
      | _ => none
    else some ""

/-! ## The `_toml_get` pattern

`ConfigTool._toml_get` runs
`re.search(r'^\s*KEY\s*=\s*"([^"]*)"\s*$', text, flags=re.MULTILINE)`.
With `re.MULTILINE`, `^` anchors at the start of the text or right after a
newline and `$` matches before a newline or at the end; `\s` (which
includes the newline itself) may appear around the key and the equals
sign, and `[^"]*` may also cross newlines.  The functions below implement
exactly that leftmost search. -/

/-- Consume a literal prefix, returning the rest on success. -/
def stripPrefixChars : List Char → List Char → Option (List Char)
  | [], cs => some cs
  | _ :: _, [] => none
  | p :: ps, c :: cs => if c = p then stripPrefixChars ps cs else none

/-- After the opening quote: `([^"]*)"\s*$`.  The group is the maximal
quote-free run; `\s*$` succeeds iff everything between the closing quote
and the next newline (or the end) is whitespace. -/
def parseQuoted (cs : List Char) : Option (List Char) :=
  match cs.dropWhile (fun c => c != '"') with
  | _ :: rest =>
    if ((rest.takeWhile fun c => c != '\n').all isPySpace) then
      some (cs.takeWhile fun c => c != '"')
    else none
  | [] => none

/-- Attempt the whole pattern at one anchor position. -/
def matchKeyAt (key cs : List Char) : Option (List Char) :=
  match stripPrefixChars key (cs.dropWhile isPySpace) with
  | none => none
  | some cs1 =>
    match cs1.dropWhile isPySpace with
    | '=' :: cs2 =>
      match cs2.dropWhile isPySpace with
      | '"' :: cs3 => parseQuoted cs3
      | _ => none
    | _ => none

/-- Scan for the next anchor position (the character after a newline) and
try the pattern there; earlier anchors take precedence. -/
def tomlGoAux (key : List Char) : List Char → Option (List Char)
  | [] => none
  | c :: rest =>
    if c = '\n' then
      match matchKeyAt key rest with
      | some v => some v
      | none => tomlGoAux key rest
    else tomlGoAux key rest

/-- `re.search` of the `_toml_get` pattern: try the start of the text,
then each position after a newline, left to right. -/
def tomlSearch (key cs : List Char) : Option (List Char) :=
  match matchKeyAt key cs with
  | some v => some v
  | none => tomlGoAux key cs

/-- `ConfigTool._toml_get`: the captured group of the first match, if
any. -/
def toml_get (text key : String) : Option String :=
  (tomlSearch key.data text.data).map fun cs => String.mk cs

/-! ## Data model and filesystem -/

/-- In-memory Codex form fields (`codex_*_var` in the source). -/
structure CodexProfile where
  base_url : String
  model : String
  reasoning_effort : String
  verbosity : String
  api_key : String
  deriving DecidableEq, Repr

/-- In-memory Claude form fields (`claude_*_var` in the source). -/
structure ClaudeProfile where
  base_url : String
  auth_token : String
  default_opus_model : String
  disable_nonessential_traffic : Bool
  deriving DecidableEq, Repr

/-- The three fixed paths the tool touches; `none` = file absent. -/
structure FileSystem where
  codexConfig : Option String
  codexAuth : Option PyJson
  claudeConfig : Option PyJson
  deriving DecidableEq, Repr

/-- A filesystem with none of the three files present. -/
def emptyFS : FileSystem := ⟨none, none, none⟩

/-- Outcome of a write operation. -/
inductive WriteResult where
  | ok
  | validationError
  | cancelled
  deriving DecidableEq, Repr

/-- Outcome of a load operation (`notFound` is the explicit
"settings.json missing" warning of `load_claude`). -/
inductive LoadResult where
  | ok
  | error
  | notFound
  deriving DecidableEq, Repr

/-- Process defaults (`CODEX_*`, `CLAUDE_*` constants in the source). -/
def CODEX_BASE_URL : String := "https://naapi.cc/v1"

def CODEX_MODEL : String := "gpt-5.2"

def CODEX_REASONING : String := "xhigh"

def CODEX_VERBOSITY : String := "high"

def CLAUDE_BASE_URL : String := "https://naapi.cc"

def CLAUDE_OPUS_MODEL : String := "claude-opus-4-6-thinking"

def CLAUDE_DISABLE_TRAFFIC : Bool := true

/-! ## Operations -/

/-- One field update of `load_codex`: `v = _toml_get(text, key)` followed
by `if v: var.set(v)` (a `None` or empty match keeps the prior value). -/
def applyTomlField (text key cur : String) : String :=
  match toml_get text key with
  | some v => if v != "" then v else cur
  | none => cur

/-- `ConfigTool.load_codex`: merge the config text (if present), then the
auth JSON (if present).  A failure while reading the auth file keeps the
fields already merged from the text file, exactly as in the source. -/
def load_codex (fs : FileSystem) (p : CodexProfile) : CodexProfile × LoadResult :=
  let p1 :=
    match fs.codexConfig with
    | none => p
    | some text =>
      { p with
        base_url := applyTomlField text "base_url" p.base_url
        model := applyTomlField text "model" p.model
        reasoning_effort := applyTomlField text "model_reasoning_effort" p.reasoning_effort
        verbosity := applyTomlField text "model_verbosity" p.verbosity }
  match fs.codexAuth with
  | none => (p1, LoadResult.ok)
  | some (.jscalar _) => (p1, LoadResult.error)
  | some (.jobj kvs) =>
    match getStrippedField kvs "OPENAI_API_KEY" with
    | none => (p1, LoadResult.error)
    | some key => (if key != "" then { p1 with api_key := key } else p1, LoadResult.ok)

/-- `data.get("env") or {}` of `load_claude`: `{}` substitutes for a
missing or falsy `env` value. -/
def claudeEnvOf (kvs : List (String × PyField)) : PyField :=
  match pyGetField kvs "env" with
  | some v => if fieldTruthy v then v else .fobj []
  | none => .fobj []

/-- The body of `load_claude` once the env object is in hand: the three
string fields are all computed before any is stored (a raise in any of
them stores nothing); the disable flag is stored only when `env.get`
returns a non-`None` value, as `str(value).strip() == "1"`. -/
def load_claude_env (env : List (String × PyScalar)) (p : ClaudeProfile) :
    ClaudeProfile × LoadResult :=
  match getStrippedScalar env "ANTHROPIC_BASE_URL",
        getStrippedScalar env "ANTHROPIC_AUTH_TOKEN",
        getStrippedScalar env "ANTHROPIC_DEFAULT_OPUS_MODEL" with
  | some base_url, some token, some opus =>
    let p := if base_url != "" then { p with base_url := base_url } else p
    let p := if token != "" then { p with auth_token := token } else p
    let p := if opus != "" then { p with default_opus_model := opus } else p
    let p :=
      match pyGetScalar env "CLAUDE_CODE_DISABLE_NONESSENTIAL_TRAFFIC" with
      | some v =>
        { p with disable_nonessential_traffic := pyStrip (pyStr v) == "1" }
      | none => p
    (p, LoadResult.ok)
  | _, _, _ => (p, LoadResult.error)

/-- `ConfigTool.load_claude`.  A missing file is the explicit warning
(`notFound`); a truthy non-object `data` or `env` raises inside the
`try` (`error`). -/
def load_claude (fs : FileSystem) (p : ClaudeProfile) : ClaudeProfile × LoadResult :=
  match fs.claudeConfig with
  | none => (p, LoadResult.notFound)
  | some (.jscalar _) => (p, LoadResult.error)
  | some (.jobj kvs) =>
    match claudeEnvOf kvs with
    | .fscalar _ => (p, LoadResult.error)
    | .fobj env => load_claude_env env p

/-- The f-string template `write_codex` writes to `config.toml`. -/
def codexConfigContent (model reasoning verbosity base_url : String) : String :=
  "model_provider = \"naapi\"\nmodel = \"" ++ model
    ++ "\"\nmodel_reasoning_effort = \"" ++ reasoning
    ++ "\"\nnetwork_access = \"enabled\"\ndisable_response_storage = true\nwindows_wsl_setup_acknowledged = true\nmodel_verbosity = \"" ++ verbosity
    ++ "\"\n\n[model_providers.naapi]\nname = \"naapi\"\nbase_url = \"" ++ base_url
    ++ "\"\nwire_api = \"responses\"\nrequires_openai_auth = true\n"

/-- `ConfigTool.write_codex`.  `confirm_sk` is the collaborator's
answer to the soft "does not start with sk-" prompt, `confirm_overwrite`
the answer to `_confirm_overwrite` (which is consulted only when a target
file exists). -/
def write_codex (confirm_sk confirm_overwrite : Bool)
    (fs : FileSystem) (p : CodexProfile) : FileSystem × WriteResult :=
  let api_key := pyStrip p.api_key
  if api_key = "" ∨ api_key = "sk-" then (fs, WriteResult.validationError)
  else if ¬ startsWithSk api_key ∧ ¬ confirm_sk then (fs, WriteResult.cancelled)
  else if (fs.codexConfig.isSome ∨ fs.codexAuth.isSome) ∧ ¬ confirm_overwrite then
    (fs, WriteResult.cancelled)
  else
    let base_url := if pyStrip p.base_url = "" then CODEX_BASE_URL else pyStrip p.base_url
    let model := if pyStrip p.model = "" then CODEX_MODEL else pyStrip p.model
    let reasoning :=
      if pyStrip p.reasoning_effort = "" then CODEX_REASONING else pyStrip p.reasoning_effort
    let verbosity := if pyStrip p.verbosity = "" then CODEX_VERBOSITY else pyStrip p.verbosity
    ({ fs with
        codexConfig := some (codexConfigContent model reasoning verbosity base_url)
        codexAuth := some (.jobj [("OPENAI_API_KEY", .fscalar (.vstr api_key))]) },
      WriteResult.ok)

/-- `ConfigTool.write_claude`.  Token validation precedes the overwrite
confirmation; the disable key is appended to `env` only when the checkbox
is set. -/
def write_claude (confirm_overwrite : Bool)
    (fs : FileSystem) (p : ClaudeProfile) : FileSystem × WriteResult :=
  let token := pyStrip p.auth_token
  if token = "" then (fs, WriteResult.validationError)
  else if fs.claudeConfig.isSome ∧ ¬ confirm_overwrite then (fs, WriteResult.cancelled)
  else
    let base_url := if pyStrip p.base_url = "" then CLAUDE_BASE_URL else pyStrip p.base_url
    let opus :=
      if pyStrip p.default_opus_model = "" then CLAUDE_OPUS_MODEL
      else pyStrip p.default_opus_model
    let env : List (String × PyScalar) :=
      [("ANTHROPIC_BASE_URL", .vstr base_url),
       ("ANTHROPIC_AUTH_TOKEN", .vstr token),
       ("ANTHROPIC_DEFAULT_OPUS_MODEL", .vstr opus)]
      ++ (if p.disable_nonessential_traffic then
            [("CLAUDE_CODE_DISABLE_NONESSENTIAL_TRAFFIC", PyScalar.vstr "1")]
          else [])
    ({ fs with claudeConfig := some (.jobj [("env", .fobj env)]) }, WriteResult.ok)

/-! ## General list helpers -/

theorem dropWhile_append_of_all {p : Char → Bool} {w : List Char}
    (hw : ∀ c ∈ w, p c = true) (l : List Char) :
    List.dropWhile p (w ++ l) = List.dropWhile p l := by
  induction w with
  | nil => rfl
  | cons c cs ih =>
    have hc : p c = true := hw c (by simp)
    simp only [List.cons_append, List.dropWhile_cons, hc, if_pos]
    exact ih (fun d hd => hw d (by simp [hd]))

theorem dropWhile_all_eq_nil {p : Char → Bool} {w : List Char}
    (hw : ∀ c ∈ w, p c = true) : List.dropWhile p w = [] := by
  have := dropWhile_append_of_all hw []
  simpa using this

theorem takeWhile_append_stop {p : Char → Bool} {v : List Char}
    (hv : ∀ c ∈ v, p c = true) {c0 : Char} (hc : p c0 = false) (rest : List Char) :
    List.takeWhile p (v ++ c0 :: rest) = v := by
  induction v with
  | nil => simp [List.takeWhile_cons, hc]
  | cons c cs ih =>
    have h1 : p c = true := hv c (by simp)
    simp only [List.cons_append, List.takeWhile_cons, h1, if_pos, List.cons.injEq, true_and]
    exact ih (fun d hd => hv d (by simp [hd]))

theorem dropWhile_append_stop {p : Char → Bool} {v : List Char}
    (hv : ∀ c ∈ v, p c = true) {c0 : Char} (hc : p c0 = false) (rest : List Char) :
    List.dropWhile p (v ++ c0 :: rest) = c0 :: rest := by
  induction v with
  | nil => simp [List.dropWhile_cons, hc]
  | cons c cs ih =>
    have h1 : p c = true := hv c (by simp)
    simp only [List.cons_append, List.dropWhile_cons, h1, if_pos]
    exact ih (fun d hd => hv d (by simp [hd]))

theorem head_dropWhile_false {p : Char → Bool} :
    ∀ l : List Char, ∀ c, (List.dropWhile p l).head? = some c → p c = false
  | [], c => by intro h; simp [List.dropWhile] at h
  | a :: l, c => by
    intro h
    by_cases ha : p a
    · rw [List.dropWhile_cons, if_pos ha] at h
      exact head_dropWhile_false l c h
    · rw [List.dropWhile_cons, if_neg ha] at h
      simp at h
      subst h
      simpa using ha

theorem dropWhile_eq_self_of_head {p : Char → Bool} {l : List Char}
    (h : ∀ c, l.head? = some c → p c = false) : List.dropWhile p l = l := by
  cases l with
  | nil => rfl
  | cons a l => rw [List.dropWhile_cons, if_neg (by simp [h a rfl])]

theorem stripPrefixChars_append (k rest : List Char) :
    stripPrefixChars k (k ++ rest) = some rest := by
  induction k with
  | nil => rfl
  | cons c cs ih => simp [stripPrefixChars, ih]

/-! ## Facts about `pyStrip` -/

theorem stripChars_sandwich {w1 w2 k : List Char}
    (h1 : ∀ c ∈ w1, isPySpace c = true) (h2 : ∀ c ∈ w2, isPySpace c = true)
    (hk : List.dropWhile isPySpace k = k)
    (hk2 : List.dropWhile isPySpace k.reverse = k.reverse) :
    stripChars (w1 ++ k ++ w2) = k := by
  unfold stripChars
  rw [List.append_assoc, dropWhile_append_of_all h1]
  cases k with
  | nil =>
    rw [List.nil_append, dropWhile_all_eq_nil h2]
    rfl
  | cons a k0 =>
    have ha : isPySpace a = false := head_dropWhile_false (a :: k0) a (by rw [hk]; rfl)
    rw [List.cons_append, List.dropWhile_cons, if_neg (by simp [ha])]
    rw [show a :: (k0 ++ w2) = (a :: k0) ++ w2 from rfl]
    rw [List.reverse_append, dropWhile_append_of_all (fun c hc => h2 c (by simpa using hc))]
    rw [hk2, List.reverse_reverse]

theorem stripChars_all_space {w : List Char} (hw : ∀ c ∈ w, isPySpace c = true) :
    stripChars w = [] := by
  unfold stripChars
  rw [dropWhile_all_eq_nil hw]
  rfl

theorem pyStrip_all_space {s : String} (hw : ∀ c ∈ s.data, isPySpace c = true) :
    pyStrip s = "" := by
  unfold pyStrip
  rw [stripChars_all_space hw]

theorem stripChars_head {cs : List Char} :
    ∀ c, (stripChars cs).head? = some c → isPySpace c = false := by
  intro c h
  unfold stripChars at h
  rw [List.head?_reverse] at h
  rcases List.mem_getLast?_eq_getLast (l := ((cs.dropWhile isPySpace).reverse.dropWhile isPySpace)) h with ⟨hne, hl⟩
  have hsuffix : ((cs.dropWhile isPySpace).reverse.dropWhile isPySpace) <:+
      (cs.dropWhile isPySpace).reverse := List.dropWhile_suffix isPySpace
  rcases hsuffix with ⟨t, ht⟩
  have : ((cs.dropWhile isPySpace).reverse).getLast? = some c := by
    rw [← ht]
    rw [List.getLast?_append_of_ne_nil]
    · exact h
    · intro hnil
      exact hne hnil
  rw [List.getLast?_reverse] at this
  exact head_dropWhile_false _ c this

theorem stripChars_getLast {cs : List Char} :
    ∀ c, (stripChars cs).getLast? = some c → isPySpace c = false := by
  intro c h
  unfold stripChars at h
  rw [List.getLast?_reverse] at h
  exact head_dropWhile_false _ c h

theorem stripChars_idem (cs : List Char) : stripChars (stripChars cs) = stripChars cs := by
  have h1 : List.dropWhile isPySpace (stripChars cs) = stripChars cs :=
    dropWhile_eq_self_of_head (fun c hc => stripChars_head c hc)
  have h2 : List.dropWhile isPySpace (stripChars cs).reverse = (stripChars cs).reverse := by
    apply dropWhile_eq_self_of_head
    intro c hc
    rw [List.head?_reverse] at hc
    exact stripChars_getLast c hc
  calc stripChars (stripChars cs)
      = (((stripChars cs).dropWhile isPySpace).reverse.dropWhile isPySpace).reverse := rfl
    _ = stripChars cs := by rw [h1, h2, List.reverse_reverse]

theorem pyStrip_idem (s : String) : pyStrip (pyStrip s) = pyStrip s := by
  unfold pyStrip
  rw [show (String.mk (stripChars s.data)).data = stripChars s.data from rfl]
  rw [stripChars_idem]

/-- A string with no leading or trailing (Python) whitespace. -/
def NoEdgeWs (s : String) : Prop :=
  (∀ c, s.data.head? = some c → isPySpace c = false) ∧
  (∀ c, s.data.getLast? = some c → isPySpace c = false)

theorem pyStrip_noEdgeWs (s : String) : NoEdgeWs (pyStrip s) := by
  constructor
  · intro c hc
    exact stripChars_head c hc
  · intro c hc
    exact stripChars_getLast c hc

theorem pyStrip_sandwich {w1 w2 k : List Char} {s : String}
    (h1 : ∀ c ∈ w1, isPySpace c = true) (h2 : ∀ c ∈ w2, isPySpace c = true)
    (hk : List.dropWhile isPySpace k = k)
    (hk2 : List.dropWhile isPySpace k.reverse = k.reverse)
    (hs : s.data = w1 ++ k ++ w2) :
    pyStrip s = String.mk k := by
  unfold pyStrip
  rw [hs, stripChars_sandwich h1 h2 hk hk2]

/-! ## Stepping lemmas for `tomlSearch` -/

theorem tomlGoAux_append {key : List Char} {l1 : List Char}
    (h : ∀ c ∈ l1, ¬ c = '\n') (l2 : List Char) :
    tomlGoAux key (l1 ++ l2) = tomlGoAux key l2 := by
  induction l1 with
  | nil => rfl
  | cons c cs ih =>
    have hc : ¬ c = '\n' := h c (by simp)
    simp only [List.cons_append, tomlGoAux, if_neg hc]
    exact ih (fun d hd => h d (by simp [hd]))

theorem tomlGoAux_cons_nl (key rest : List Char) :
    tomlGoAux key ('\n' :: rest) = tomlSearch key rest := by
  unfold tomlGoAux tomlSearch
  rw [if_pos rfl]

theorem tomlSearch_skip_line {key l1 rest : List Char}
    (h1 : ∀ c ∈ l1, ¬ c = '\n')
    (hfail : matchKeyAt key (l1 ++ '\n' :: rest) = none) :
    tomlSearch key (l1 ++ '\n' :: rest) = tomlSearch key rest := by
  unfold tomlSearch
  rw [hfail, tomlGoAux_append h1, tomlGoAux_cons_nl]
  rfl

theorem tomlSearch_skip_empty {key rest : List Char}
    (hfail : matchKeyAt key ('\n' :: rest) = none) :
    tomlSearch key ('\n' :: rest) = tomlSearch key rest := by
  unfold tomlSearch
  rw [hfail, tomlGoAux_cons_nl]
  rfl

theorem tomlSearch_skip_vline {key pre val rest : List Char}
    (hpre : ∀ c ∈ pre, ¬ c = '\n') (hval : ∀ c ∈ val, ¬ c = '\n')
    (hfail : matchKeyAt key (pre ++ (val ++ '"' :: '\n' :: rest)) = none) :
    tomlSearch key (pre ++ (val ++ '"' :: '\n' :: rest)) = tomlSearch key rest := by
  have hsh : pre ++ (val ++ '"' :: '\n' :: rest) = (pre ++ (val ++ ['"'])) ++ '\n' :: rest := by
    simp
  rw [hsh] at hfail ⊢
  apply tomlSearch_skip_line _ hfail
  intro c hc
  rcases List.mem_append.1 hc with h | h
  · exact hpre c h
  rcases List.mem_append.1 h with h | h
  · exact hval c h
  · simp at h
    subst h
    decide

theorem tomlSearch_found {key cs v : List Char}
    (h : matchKeyAt key cs = some v) : tomlSearch key cs = some v := by
  unfold tomlSearch
  rw [h]

theorem matchKeyAt_eq_of {key cs cs1 cs2 cs3 : List Char}
    (h1 : stripPrefixChars key (cs.dropWhile isPySpace) = some cs1)
    (h2 : cs1.dropWhile isPySpace = '=' :: cs2)
    (h3 : cs2.dropWhile isPySpace = '"' :: cs3) :
    matchKeyAt key cs = parseQuoted cs3 := by
  simp only [matchKeyAt, h1, h2, h3]

theorem parseQuoted_closed {v : List Char} (after : List Char)
    (hv : ∀ c ∈ v, (c != '"') = true)
    (hafter : ((after.takeWhile fun c => c != '\n').all isPySpace) = true) :
    parseQuoted (v ++ '"' :: after) = some v := by
  unfold parseQuoted
  rw [dropWhile_append_stop hv (by decide) _, takeWhile_append_stop hv (by decide) _]
  simp [hafter]

theorem matchKeyAt_template {key : List Char} (v after : List Char)
    (hk0 : isPySpace (key.headD '\n') = false)
    (hv : ∀ c ∈ v, (c != '"') = true)
    (hafter : ((after.takeWhile fun c => c != '\n').all isPySpace) = true) :
    matchKeyAt key (key ++ ' ' :: '=' :: ' ' :: '"' :: (v ++ '"' :: after)) = some v := by
  obtain ⟨k0, ks, rfl⟩ : ∃ k0 ks, key = k0 :: ks := by
    cases key with
    | nil => exact absurd hk0 (by decide)
    | cons a l => exact ⟨a, l, rfl⟩
  have hk : isPySpace k0 = false := hk0
  have h1 : stripPrefixChars (k0 :: ks)
      (((k0 :: ks) ++ ' ' :: '=' :: ' ' :: '"' :: (v ++ '"' :: after)).dropWhile isPySpace)
      = some (' ' :: '=' :: ' ' :: '"' :: (v ++ '"' :: after)) := by
    rw [List.cons_append, List.dropWhile_cons, if_neg (by simp [hk])]
    rw [show k0 :: (ks ++ ' ' :: '=' :: ' ' :: '"' :: (v ++ '"' :: after))
        = (k0 :: ks) ++ (' ' :: '=' :: ' ' :: '"' :: (v ++ '"' :: after)) from rfl]
    rw [stripPrefixChars_append]
  have h2 : List.dropWhile isPySpace (' ' :: '=' :: ' ' :: '"' :: (v ++ '"' :: after))
      = '=' :: ' ' :: '"' :: (v ++ '"' :: after) := by
    rw [List.dropWhile_cons, if_pos (by decide), List.dropWhile_cons, if_neg (by decide)]
  have h3 : List.dropWhile isPySpace (' ' :: '"' :: (v ++ '"' :: after))
      = '"' :: (v ++ '"' :: after) := by
    rw [List.dropWhile_cons, if_pos (by decide), List.dropWhile_cons, if_neg (by decide)]
  rw [matchKeyAt_eq_of h1 h2 h3]
  exact parseQuoted_closed after hv hafter

theorem tomlSearch_skip_kvline {key pre val rest : List Char}
    (hpre : ∀ c ∈ pre, ¬ c = '\n') (hval : ∀ c ∈ val, ¬ c = '\n')
    (hfail : matchKeyAt key
      (pre ++ ' ' :: '=' :: ' ' :: '"' :: (val ++ '"' :: '\n' :: rest)) = none) :
    tomlSearch key (pre ++ ' ' :: '=' :: ' ' :: '"' :: (val ++ '"' :: '\n' :: rest))
      = tomlSearch key rest := by
  have hsh : pre ++ ' ' :: '=' :: ' ' :: '"' :: (val ++ '"' :: '\n' :: rest)
      = (pre ++ ' ' :: '=' :: ' ' :: '"' :: (val ++ ['"'])) ++ '\n' :: rest := by
    simp
  rw [hsh] at hfail ⊢
  apply tomlSearch_skip_line _ hfail
  intro c hc
  rcases List.mem_append.1 hc with h | h
  · exact hpre c h
  · simp only [List.mem_cons] at h
    rcases h with h | h | h | h | h
    · subst h; decide
    · subst h; decide
    · subst h; decide
    · subst h; decide
    · rcases List.mem_append.1 h with h | h
      · exact hval c h
      · simp at h
        subst h
        decide

theorem data_append (a b : String) : (a ++ b).data = a.data ++ b.data := rfl

/-- Canonical line decomposition of the written `config.toml` text. -/
theorem codexConfigContent_data (m r v b : String) :
    (codexConfigContent m r v b).data =
      "model_provider = \"naapi\"".data ++ '\n' ::
      ("model".data ++ ' ' :: '=' :: ' ' :: '"' ::
        (m.data ++ '"' :: '\n' ::
        ("model_reasoning_effort".data ++ ' ' :: '=' :: ' ' :: '"' ::
          (r.data ++ '"' :: '\n' ::
          ("network_access = \"enabled\"".data ++ '\n' ::
          ("disable_response_storage = true".data ++ '\n' ::
          ("windows_wsl_setup_acknowledged = true".data ++ '\n' ::
          ("model_verbosity".data ++ ' ' :: '=' :: ' ' :: '"' ::
            (v.data ++ '"' :: '\n' :: '\n' ::
            ("[model_providers.naapi]".data ++ '\n' ::
            ("name = \"naapi\"".data ++ '\n' ::
            ("base_url".data ++ ' ' :: '=' :: ' ' :: '"' ::
              (b.data ++ '"' :: '\n' ::
              ("wire_api = \"responses\"".data ++ '\n' ::
              ("requires_openai_auth = true".data ++ '\n' :: []))))))))))))))) := by
  set_option maxRecDepth 4000 in
  simp only [codexConfigContent, data_append, List.append_assoc, List.cons_append,
    List.nil_append]

/-! No-match facts for each template line and key: the pattern fails inside
the concrete part of the line, so the tail can stay abstract. -/

theorem nm_model_l0 (Z : List Char) :
    matchKeyAt "model".data ("model_provider = \"naapi\"".data ++ '\n' :: Z) = none := rfl

theorem nm_reason_l0 (Z : List Char) :
    matchKeyAt "model_reasoning_effort".data
      ("model_provider = \"naapi\"".data ++ '\n' :: Z) = none := rfl

theorem nm_reason_l1 (Z : List Char) :
    matchKeyAt "model_reasoning_effort".data
      ("model".data ++ ' ' :: '=' :: ' ' :: '"' :: Z) = none := rfl

theorem nm_verb_l0 (Z : List Char) :
    matchKeyAt "model_verbosity".data
      ("model_provider = \"naapi\"".data ++ '\n' :: Z) = none := rfl

theorem nm_verb_l1 (Z : List Char) :
    matchKeyAt "model_verbosity".data
      ("model".data ++ ' ' :: '=' :: ' ' :: '"' :: Z) = none := rfl

theorem nm_verb_l2 (Z : List Char) :
    matchKeyAt "model_verbosity".data
      ("model_reasoning_effort".data ++ ' ' :: '=' :: ' ' :: '"' :: Z) = none := rfl

theorem nm_verb_l3 (Z : List Char) :
    matchKeyAt "model_verbosity".data
      ("network_access = \"enabled\"".data ++ '\n' :: Z) = none := rfl

theorem nm_verb_l4 (Z : List Char) :
    matchKeyAt "model_verbosity".data
      ("disable_response_storage = true".data ++ '\n' :: Z) = none := rfl

theorem nm_verb_l5 (Z : List Char) :
    matchKeyAt "model_verbosity".data
      ("windows_wsl_setup_acknowledged = true".data ++ '\n' :: Z) = none := rfl

theorem nm_burl_l0 (Z : List Char) :
    matchKeyAt "base_url".data ("model_provider = \"naapi\"".data ++ '\n' :: Z) = none := rfl

theorem nm_burl_l1 (Z : List Char) :
    matchKeyAt "base_url".data ("model".data ++ ' ' :: '=' :: ' ' :: '"' :: Z) = none := rfl

theorem nm_burl_l2 (Z : List Char) :
    matchKeyAt "base_url".data
      ("model_reasoning_effort".data ++ ' ' :: '=' :: ' ' :: '"' :: Z) = none := rfl

theorem nm_burl_l3 (Z : List Char) :
    matchKeyAt "base_url".data ("network_access = \"enabled\"".data ++ '\n' :: Z) = none := rfl

theorem nm_burl_l4 (Z : List Char) :
    matchKeyAt "base_url".data
      ("disable_response_storage = true".data ++ '\n' :: Z) = none := rfl

theorem nm_burl_l5 (Z : List Char) :
    matchKeyAt "base_url".data
      ("windows_wsl_setup_acknowledged = true".data ++ '\n' :: Z) = none := rfl

theorem nm_burl_l6 (Z : List Char) :
    matchKeyAt "base_url".data
      ("model_verbosity".data ++ ' ' :: '=' :: ' ' :: '"' :: Z) = none := rfl

theorem nm_burl_l7 (Z : List Char) :
    matchKeyAt "base_url".data ('\n' :: ("[model_providers.naapi]".data ++ Z)) = none := rfl

theorem nm_burl_l8 (Z : List Char) :
    matchKeyAt "base_url".data ("[model_providers.naapi]".data ++ '\n' :: Z) = none := rfl

theorem nm_burl_l9 (Z : List Char) :
    matchKeyAt "base_url".data ("name = \"naapi\"".data ++ '\n' :: Z) = none := rfl

theorem matchKeyAt_template_nl {key : List Char} (v rest : List Char)
    (hk0 : isPySpace (key.headD '\n') = false)
    (hv : ∀ c ∈ v, (c != '"') = true) :
    matchKeyAt key (key ++ ' ' :: '=' :: ' ' :: '"' :: (v ++ '"' :: '\n' :: rest)) = some v :=
  matchKeyAt_template v ('\n' :: rest) hk0 hv (by rw [List.takeWhile_cons]; simp)

/-- `_toml_get` recovers the model written by `write_codex`. -/
theorem toml_content_model (m r v b : String)
    (hmq : ∀ c ∈ m.data, (c != '"') = true) :
    toml_get (codexConfigContent m r v b) "model" = some m := by
  unfold toml_get
  rw [codexConfigContent_data]
  rw [tomlSearch_skip_line (by decide) (nm_model_l0 _)]
  rw [tomlSearch_found (matchKeyAt_template_nl m.data _ (by decide) hmq)]
  rfl

/-- `_toml_get` recovers the reasoning effort written by `write_codex`. -/
theorem toml_content_reasoning (m r v b : String)
    (hmn : ∀ c ∈ m.data, ¬ c = '\n')
    (hrq : ∀ c ∈ r.data, (c != '"') = true) :
    toml_get (codexConfigContent m r v b) "model_reasoning_effort" = some r := by
  unfold toml_get
  rw [codexConfigContent_data]
  rw [tomlSearch_skip_line (by decide) (nm_reason_l0 _)]
  rw [tomlSearch_skip_kvline (by decide) hmn (nm_reason_l1 _)]
  rw [tomlSearch_found (matchKeyAt_template_nl r.data _ (by decide) hrq)]
  rfl

/-- `_toml_get` recovers the verbosity written by `write_codex`. -/
theorem toml_content_verbosity (m r v b : String)
    (hmn : ∀ c ∈ m.data, ¬ c = '\n') (hrn : ∀ c ∈ r.data, ¬ c = '\n')
    (hvq : ∀ c ∈ v.data, (c != '"') = true) :
    toml_get (codexConfigContent m r v b) "model_verbosity" = some v := by
  unfold toml_get
  rw [codexConfigContent_data]
  rw [tomlSearch_skip_line (by decide) (nm_verb_l0 _)]
  rw [tomlSearch_skip_kvline (by decide) hmn (nm_verb_l1 _)]
  rw [tomlSearch_skip_kvline (by decide) hrn (nm_verb_l2 _)]
  rw [tomlSearch_skip_line (by decide) (nm_verb_l3 _)]
  rw [tomlSearch_skip_line (by decide) (nm_verb_l4 _)]
  rw [tomlSearch_skip_line (by decide) (nm_verb_l5 _)]
  rw [tomlSearch_found (matchKeyAt_template_nl v.data _ (by decide) hvq)]
  rfl

/-- `_toml_get` recovers the base URL written by `write_codex`. -/
theorem toml_content_base_url (m r v b : String)
    (hmn : ∀ c ∈ m.data, ¬ c = '\n') (hrn : ∀ c ∈ r.data, ¬ c = '\n')
    (hvn : ∀ c ∈ v.data, ¬ c = '\n')
    (hbq : ∀ c ∈ b.data, (c != '"') = true) :
    toml_get (codexConfigContent m r v b) "base_url" = some b := by
  unfold toml_get
  rw [codexConfigContent_data]
  rw [tomlSearch_skip_line (by decide) (nm_burl_l0 _)]
  rw [tomlSearch_skip_kvline (by decide) hmn (nm_burl_l1 _)]
  rw [tomlSearch_skip_kvline (by decide) hrn (nm_burl_l2 _)]
  rw [tomlSearch_skip_line (by decide) (nm_burl_l3 _)]
  rw [tomlSearch_skip_line (by decide) (nm_burl_l4 _)]
  rw [tomlSearch_skip_line (by decide) (nm_burl_l5 _)]
  rw [tomlSearch_skip_kvline (by decide) hvn (nm_burl_l6 _)]
  rw [tomlSearch_skip_empty (nm_burl_l7 _)]
  rw [tomlSearch_skip_line (by decide) (nm_burl_l8 _)]
  rw [tomlSearch_skip_line (by decide) (nm_burl_l9 _)]
  rw [tomlSearch_found (matchKeyAt_template_nl b.data _ (by decide) hbq)]
  rfl

theorem applyTomlField_some {text key v : String} (cur : String)
    (h : toml_get text key = some v) (hne : v ≠ "") :
    applyTomlField text key cur = v := by
  unfold applyTomlField
  rw [h]
  simp [hne]

theorem applyTomlField_keep {text key : String} (cur : String)
    (h : toml_get text key = none ∨ toml_get text key = some "") :
    applyTomlField text key cur = cur := by
  unfold applyTomlField
  rcases h with h | h
  · rw [h]
  · rw [h]
    simp

/-- A form value that survives the write/load cycle unchanged: already
trimmed, non-blank, and free of double quotes and newlines. -/
def CleanValue (s : String) : Prop :=
  pyStrip s = s ∧ s ≠ "" ∧
  (∀ c ∈ s.data, (c != '"') = true) ∧ (∀ c ∈ s.data, ¬ c = '\n')

instance (s : String) : Decidable (CleanValue s) := by
  unfold CleanValue
  infer_instance

theorem write_codex_clean (fs : FileSystem) (p : CodexProfile)
    (hb1 : pyStrip p.base_url = p.base_url) (hb2 : p.base_url ≠ "")
    (hm1 : pyStrip p.model = p.model) (hm2 : p.model ≠ "")
    (hr1 : pyStrip p.reasoning_effort = p.reasoning_effort) (hr2 : p.reasoning_effort ≠ "")
    (hv1 : pyStrip p.verbosity = p.verbosity) (hv2 : p.verbosity ≠ "")
    (hk1 : pyStrip p.api_key = p.api_key) (hk2 : p.api_key ≠ "") (hk3 : p.api_key ≠ "sk-") :
    write_codex true true fs p =
      ({ fs with
          codexConfig := some
            (codexConfigContent p.model p.reasoning_effort p.verbosity p.base_url)
          codexAuth := some (.jobj [("OPENAI_API_KEY", .fscalar (.vstr p.api_key))]) },
        WriteResult.ok) := by
  unfold write_codex
  simp only [hb1, hm1, hr1, hv1, hk1]
  rw [if_neg (by simp [hk2, hk3])]
  rw [if_neg (by simp)]
  rw [if_neg (by simp)]
  simp [hb2, hm2, hr2, hv2]

theorem load_codex_written (p0 p : CodexProfile) (fs : FileSystem)
    (hb : CleanValue p.base_url) (hm : CleanValue p.model)
    (hr : CleanValue p.reasoning_effort) (hv : CleanValue p.verbosity)
    (hk1 : pyStrip p.api_key = p.api_key) (hk2 : p.api_key ≠ "") :
    load_codex
      { fs with
        codexConfig := some
          (codexConfigContent p.model p.reasoning_effort p.verbosity p.base_url)
        codexAuth := some (.jobj [("OPENAI_API_KEY", .fscalar (.vstr p.api_key))]) } p0
      = (p, LoadResult.ok) := by
  obtain ⟨hb1, hb2, hb3, hb4⟩ := hb
  obtain ⟨hm1, hm2, hm3, hm4⟩ := hm
  obtain ⟨hr1, hr2, hr3, hr4⟩ := hr
  obtain ⟨hv1, hv2, hv3, hv4⟩ := hv
  rw [show load_codex
      { fs with
        codexConfig := some
          (codexConfigContent p.model p.reasoning_effort p.verbosity p.base_url)
        codexAuth := some (.jobj [("OPENAI_API_KEY", .fscalar (.vstr p.api_key))]) } p0
    = (let p1 := { p0 with
        base_url := applyTomlField (codexConfigContent p.model p.reasoning_effort p.verbosity p.base_url) "base_url" p0.base_url
        model := applyTomlField (codexConfigContent p.model p.reasoning_effort p.verbosity p.base_url) "model" p0.model
        reasoning_effort := applyTomlField (codexConfigContent p.model p.reasoning_effort p.verbosity p.base_url) "model_reasoning_effort" p0.reasoning_effort
        verbosity := applyTomlField (codexConfigContent p.model p.reasoning_effort p.verbosity p.base_url) "model_verbosity" p0.verbosity }
       match getStrippedField [("OPENAI_API_KEY", PyField.fscalar (PyScalar.vstr p.api_key))] "OPENAI_API_KEY" with
       | none => (p1, LoadResult.error)
       | some key => (if key != "" then { p1 with api_key := key } else p1, LoadResult.ok))
    from rfl]
  rw [applyTomlField_some p0.base_url (toml_content_base_url _ _ _ _ hm4 hr4 hv4 hb3) hb2,
      applyTomlField_some p0.model (toml_content_model _ _ _ _ hm3) hm2,
      applyTomlField_some p0.reasoning_effort (toml_content_reasoning _ _ _ _ hm4 hr3) hr2,
      applyTomlField_some p0.verbosity (toml_content_verbosity _ _ _ _ hm4 hr4 hv3) hv2]
  simp only [getStrippedField, pyGetField, List.lookup, beq_self_eq_true, if_pos,
    fieldTruthy, scalarTruthy, hk1]
  simp [hk2]

/-! ## Claim C1 -/

set_option maxRecDepth 10000 in
/-- C1, counterexample to the claim as stated: the profile's `api_key`
`"sk-abc"` is valid (non-empty, not `"sk-"`), but with a blank `model`
the write substitutes the default `"gpt-5.2"`, so the write/load
round-trip does not reproduce the profile exactly as supplied. -/
theorem c1_counterexample :
    (load_codex
        (write_codex true true emptyFS
          ⟨"https://naapi.cc/v1", "", "xhigh", "high", "sk-abc"⟩).1
        ⟨"https://naapi.cc/v1", "", "xhigh", "high", "sk-abc"⟩).1
      ≠ ⟨"https://naapi.cc/v1", "", "xhigh", "high", "sk-abc"⟩ := by decide

/-- C1 (amended): for every CodexProfile whose `api_key` is trimmed,
non-empty and not `"sk-"`, and whose `base_url`, `model`,
`reasoning_effort` and `verbosity` are trimmed, non-blank and contain no
double quote and no newline, calling `write_codex` with both
confirmations granted and then `load_codex` on the same two paths
reproduces all five fields exactly, whatever in-memory profile the load
starts from. -/
theorem c1_codex_roundtrip (fs : FileSystem) (p p0 : CodexProfile)
    (hb : CleanValue p.base_url) (hm : CleanValue p.model)
    (hr : CleanValue p.reasoning_effort) (hv : CleanValue p.verbosity)
    (hk1 : pyStrip p.api_key = p.api_key) (hk2 : p.api_key ≠ "")
    (hk3 : p.api_key ≠ "sk-") :
    (load_codex (write_codex true true fs p).1 p0).1 = p := by
  rw [write_codex_clean fs p hb.1 hb.2.1 hm.1 hm.2.1 hr.1 hr.2.1 hv.1 hv.2.1 hk1 hk2 hk3]
  exact congrArg Prod.fst (load_codex_written p0 p fs hb hm hr hv hk1 hk2)

/-- C1 witness: the amended round-trip at a concrete clean profile. -/
theorem c1_codex_roundtrip_witness :
    (load_codex
        (write_codex true true emptyFS
          ⟨"https://naapi.cc/v1", "gpt-5.2", "xhigh", "high", "sk-test123"⟩).1
        ⟨"", "", "", "", ""⟩).1
      = ⟨"https://naapi.cc/v1", "gpt-5.2", "xhigh", "high", "sk-test123"⟩ :=
  c1_codex_roundtrip emptyFS _ _ (by decide) (by decide) (by decide) (by decide)
    (by decide) (by decide) (by decide)

/-! ## Claim C3 -/

/-- Modelled from the spec (section 6): the documented Codex config file
layout, to be compared with the template `write_codex` actually emits. -/
def specCodexConfig (model reasoning verbosity base_url : String) : String :=
  "model_provider = \"naapi\"\n" ++
  "model = \"" ++ model ++ "\"\n" ++
  "model_reasoning_effort = \"" ++ reasoning ++ "\"\n" ++
  "network_access = \"enabled\"\n" ++
  "disable_response_storage = true\n" ++
  "windows_wsl_setup_acknowledged = true\n" ++
  "model_verbosity = \"" ++ verbosity ++ "\"\n" ++
  "\n" ++
  "[model_providers.naapi]\n" ++
  "name = \"naapi\"\n" ++
  "base_url = \"" ++ base_url ++ "\"\n" ++
  "wire_api = \"responses\"\n" ++
  "requires_openai_auth = true\n"

set_option maxRecDepth 4000 in
/-- The emitted template refines the documented one exactly. -/
theorem specCodexConfig_eq (model reasoning verbosity base_url : String) :
    codexConfigContent model reasoning verbosity base_url
      = specCodexConfig model reasoning verbosity base_url := by
  unfold codexConfigContent specCodexConfig
  apply String.ext
  simp [data_append, List.append_assoc]

/-- C3 counterexample to the claim as stated: with the valid (non-empty,
not `"sk-"`) api_key `"sk-x "` the auth file receives the trimmed key,
not the input verbatim. -/
theorem c3_counterexample :
    (write_codex true true emptyFS ⟨"", "", "", "", "sk-x "⟩).1.codexAuth
      ≠ some (.jobj [("OPENAI_API_KEY", .fscalar (.vstr "sk-x "))]) := by decide

/-- C3 (amended): for every CodexProfile whose trimmed api_key is
non-empty and not `"sk-"`, `write_codex` with confirmation granted
produces exactly the documented config template filled with the trimmed
model, reasoning, verbosity and base_url (process defaults when the
trimmed field is blank) and an auth object whose `OPENAI_API_KEY` is the
trimmed input api_key. -/
theorem c3_write_files (fs : FileSystem) (p : CodexProfile)
    (h1 : pyStrip p.api_key ≠ "") (h2 : pyStrip p.api_key ≠ "sk-") :
    write_codex true true fs p =
      ({ fs with
          codexConfig := some (specCodexConfig
            (if pyStrip p.model = "" then CODEX_MODEL else pyStrip p.model)
            (if pyStrip p.reasoning_effort = "" then CODEX_REASONING
             else pyStrip p.reasoning_effort)
            (if pyStrip p.verbosity = "" then CODEX_VERBOSITY else pyStrip p.verbosity)
            (if pyStrip p.base_url = "" then CODEX_BASE_URL else pyStrip p.base_url))
          codexAuth := some (.jobj [("OPENAI_API_KEY", .fscalar (.vstr (pyStrip p.api_key)))]) },
        WriteResult.ok) := by
  unfold write_codex
  rw [if_neg (by simp [h1, h2])]
  rw [if_neg (by simp)]
  rw [if_neg (by simp)]
  rw [← specCodexConfig_eq]

set_option maxRecDepth 10000 in
/-- C3 witness: the amended statement at a concrete profile with blank
optional fields (defaults substituted) and a trimmed key. -/
theorem c3_write_files_witness :
    write_codex true true emptyFS ⟨"", "", "", "", "sk-w"⟩ =
      (⟨some (specCodexConfig CODEX_MODEL CODEX_REASONING CODEX_VERBOSITY CODEX_BASE_URL),
        some (.jobj [("OPENAI_API_KEY", .fscalar (.vstr "sk-w"))]), none⟩,
        WriteResult.ok) :=
  (c3_write_files emptyFS ⟨"", "", "", "", "sk-w"⟩ (by decide) (by decide)).trans (by decide)

/-! ## Claim C4 -/

/-- C4: with api_key empty or literally `"sk-"`, `write_codex` reports a
validation error and leaves the filesystem untouched. -/
theorem c4_validation (cp co : Bool) (fs : FileSystem) (p : CodexProfile)
    (h : p.api_key = "" ∨ p.api_key = "sk-") :
    write_codex cp co fs p = (fs, WriteResult.validationError) := by
  unfold write_codex
  rcases h with h | h
  · rw [h, if_pos (Or.inl (by decide))]
  · rw [h, if_pos (Or.inr (by decide))]

/-- C4 witness: both rejected inputs at a concrete filesystem. -/
theorem c4_validation_witness :
    write_codex true true emptyFS ⟨"u", "m", "r", "v", ""⟩
        = (emptyFS, WriteResult.validationError) ∧
      write_codex true true emptyFS ⟨"u", "m", "r", "v", "sk-"⟩
        = (emptyFS, WriteResult.validationError) :=
  ⟨c4_validation true true emptyFS _ (Or.inl rfl),
   c4_validation true true emptyFS _ (Or.inr rfl)⟩

/-! ## Claim C5 -/

/-- C5: `load_claude` on a missing settings file reports the dedicated
not-found warning - distinct from the generic error - and returns the
profile unchanged. -/
theorem c5_not_found (fs : FileSystem) (p : ClaudeProfile)
    (h : fs.claudeConfig = none) :
    load_claude fs p = (p, LoadResult.notFound) ∧
      LoadResult.notFound ≠ LoadResult.error := by
  constructor
  · unfold load_claude
    rw [h]
  · decide

/-- C5 witness: a concrete missing-file load. -/
theorem c5_not_found_witness :
    load_claude emptyFS ⟨"b", "t", "o", true⟩ = (⟨"b", "t", "o", true⟩, LoadResult.notFound) :=
  (c5_not_found emptyFS ⟨"b", "t", "o", true⟩ rfl).1

/-! ## Claim C9 -/

/-- C9: `write_codex` never touches the Claude settings slot, and
`write_claude` never touches the Codex config or auth slots, whatever the
profiles, confirmations and prior filesystem. -/
theorem c9_frame (cp co c : Bool) (fs : FileSystem)
    (pc : CodexProfile) (pl : ClaudeProfile) :
    (write_codex cp co fs pc).1.claudeConfig = fs.claudeConfig ∧
    (write_claude c fs pl).1.codexConfig = fs.codexConfig ∧
    (write_claude c fs pl).1.codexAuth = fs.codexAuth := by
  refine ⟨?_, ?_, ?_⟩
  · unfold write_codex
    dsimp only
    repeat' split
    all_goals rfl
  · unfold write_claude
    dsimp only
    repeat' split
    all_goals rfl
  · unfold write_claude
    dsimp only
    repeat' split
    all_goals rfl

/-! ## Claim C7 -/

/-- C7 counterexample to the claim as stated: the token `" "` is
non-empty, the settings file exists and the confirmation collaborator
declines, yet the result is a validation error - not the no-op result the
claim promises. -/
theorem c7_counterexample :
    (write_claude false ⟨none, none, some (PyJson.jobj [])⟩ ⟨"", " ", "", false⟩).2
        = WriteResult.validationError ∧
      (" " : String) ≠ "" ∧
      WriteResult.validationError ≠ WriteResult.cancelled := by decide

/-- C7 (amended): for every ClaudeProfile whose token is non-empty after
trimming and every existing settings file, declining the overwrite
confirmation leaves the filesystem unchanged and returns the cancelled
(no-op) result, which is distinct from the error results. -/
theorem c7_decline_noop (fs : FileSystem) (p : ClaudeProfile) (d : PyJson)
    (htok : pyStrip p.auth_token ≠ "") (hex : fs.claudeConfig = some d) :
    write_claude false fs p = (fs, WriteResult.cancelled) ∧
      WriteResult.cancelled ≠ WriteResult.validationError := by
  constructor
  · unfold write_claude
    rw [if_neg htok, if_pos ⟨by simp [hex], by simp⟩]
  · decide

/-- C7 witness: a concrete decline against an existing file. -/
theorem c7_decline_noop_witness :
    write_claude false ⟨none, none, some (PyJson.jobj [])⟩ ⟨"", "tok", "", false⟩
      = (⟨none, none, some (PyJson.jobj [])⟩, WriteResult.cancelled) :=
  (c7_decline_noop ⟨none, none, some (PyJson.jobj [])⟩ ⟨"", "tok", "", false⟩
    (PyJson.jobj []) (by decide) rfl).1

/-! ## Claim C2 -/

theorem claudeEnvOf_env (env : List (String × PyScalar)) :
    claudeEnvOf [("env", PyField.fobj env)] = PyField.fobj env := by
  unfold claudeEnvOf
  rw [show pyGetField [("env", PyField.fobj env)] "env" = some (PyField.fobj env) from rfl]
  cases env with
  | nil => rfl
  | cons a l => rfl

theorem getStrippedScalar_vstr {env : List (String × PyScalar)} {k s : String}
    (h : env.lookup k = some (PyScalar.vstr s)) :
    ∃ x, getStrippedScalar env k = some x := by
  unfold getStrippedScalar pyGetScalar
  rw [h]
  dsimp only
  split
  · exact ⟨pyStrip s, rfl⟩
  · exact ⟨"", rfl⟩

theorem load_claude_env_eq (env : List (String × PyScalar)) (p : ClaudeProfile)
    (b t o : String)
    (hb : getStrippedScalar env "ANTHROPIC_BASE_URL" = some b)
    (ht : getStrippedScalar env "ANTHROPIC_AUTH_TOKEN" = some t)
    (ho : getStrippedScalar env "ANTHROPIC_DEFAULT_OPUS_MODEL" = some o) :
    load_claude_env env p =
      (let p1 := if b != "" then { p with base_url := b } else p
       let p2 := if t != "" then { p1 with auth_token := t } else p1
       let p3 := if o != "" then { p2 with default_opus_model := o } else p2
       let p4 :=
         match pyGetScalar env "CLAUDE_CODE_DISABLE_NONESSENTIAL_TRAFFIC" with
         | some v => { p3 with disable_nonessential_traffic := pyStrip (pyStr v) == "1" }
         | none => p3
       (p4, LoadResult.ok)) := by
  unfold load_claude_env
  rw [hb, ht, ho]

/-- How the loaded disable flag is determined, assuming the three string
fields read without raising. -/
theorem load_claude_flag (cc : Option String) (ca : Option PyJson)
    (env : List (String × PyScalar)) (q : ClaudeProfile)
    (h1 : ∃ x, getStrippedScalar env "ANTHROPIC_BASE_URL" = some x)
    (h2 : ∃ x, getStrippedScalar env "ANTHROPIC_AUTH_TOKEN" = some x)
    (h3 : ∃ x, getStrippedScalar env "ANTHROPIC_DEFAULT_OPUS_MODEL" = some x) :
    (load_claude ⟨cc, ca, some (.jobj [("env", .fobj env)])⟩ q).1.disable_nonessential_traffic
      = (match pyGetScalar env "CLAUDE_CODE_DISABLE_NONESSENTIAL_TRAFFIC" with
         | some v => pyStrip (pyStr v) == "1"
         | none => q.disable_nonessential_traffic) := by
  obtain ⟨b, hb⟩ := h1
  obtain ⟨t, ht⟩ := h2
  obtain ⟨o, ho⟩ := h3
  rw [show load_claude ⟨cc, ca, some (.jobj [("env", .fobj env)])⟩ q
      = (match claudeEnvOf [("env", PyField.fobj env)] with
         | .fscalar _ => (q, LoadResult.error)
         | .fobj env2 => load_claude_env env2 q) from rfl]
  rw [claudeEnvOf_env]
  rw [show (match PyField.fobj env with
         | .fscalar _ => (q, LoadResult.error)
         | .fobj env2 => load_claude_env env2 q) = load_claude_env env q from rfl]
  rw [load_claude_env_eq env q b t o hb ht ho]
  cases hd : pyGetScalar env "CLAUDE_CODE_DISABLE_NONESSENTIAL_TRAFFIC" with
  | some v => rfl
  | none =>
    dsimp only
    simp only [apply_ite (fun x : ClaudeProfile => x.disable_nonessential_traffic), ite_self]

theorem write_claude_ok (fs : FileSystem) (p : ClaudeProfile)
    (htok : pyStrip p.auth_token ≠ "") :
    write_claude true fs p =
      ({ fs with claudeConfig := some (.jobj [("env", .fobj
          ([("ANTHROPIC_BASE_URL",
              PyScalar.vstr (if pyStrip p.base_url = "" then CLAUDE_BASE_URL
                             else pyStrip p.base_url)),
            ("ANTHROPIC_AUTH_TOKEN", PyScalar.vstr (pyStrip p.auth_token)),
            ("ANTHROPIC_DEFAULT_OPUS_MODEL",
              PyScalar.vstr (if pyStrip p.default_opus_model = "" then CLAUDE_OPUS_MODEL
                             else pyStrip p.default_opus_model))]
           ++ (if p.disable_nonessential_traffic then
                 [("CLAUDE_CODE_DISABLE_NONESSENTIAL_TRAFFIC", PyScalar.vstr "1")]
               else [])))]) },
        WriteResult.ok) := by
  unfold write_claude
  rw [if_neg htok, if_neg (by simp)]

theorem write_claude_flag_true (fs : FileSystem) (p : ClaudeProfile)
    (htok : pyStrip p.auth_token ≠ "") (hflag : p.disable_nonessential_traffic = true) :
    write_claude true fs p =
      ({ fs with claudeConfig := some (.jobj [("env", .fobj
          [("ANTHROPIC_BASE_URL",
             PyScalar.vstr (if pyStrip p.base_url = "" then CLAUDE_BASE_URL
                            else pyStrip p.base_url)),
           ("ANTHROPIC_AUTH_TOKEN", PyScalar.vstr (pyStrip p.auth_token)),
           ("ANTHROPIC_DEFAULT_OPUS_MODEL",
             PyScalar.vstr (if pyStrip p.default_opus_model = "" then CLAUDE_OPUS_MODEL
                            else pyStrip p.default_opus_model)),
           ("CLAUDE_CODE_DISABLE_NONESSENTIAL_TRAFFIC", PyScalar.vstr "1")])]) },
        WriteResult.ok) := by
  rw [write_claude_ok fs p htok, hflag]
  rfl

theorem write_claude_flag_false (fs : FileSystem) (p : ClaudeProfile)
    (htok : pyStrip p.auth_token ≠ "") (hflag : p.disable_nonessential_traffic = false) :
    write_claude true fs p =
      ({ fs with claudeConfig := some (.jobj [("env", .fobj
          [("ANTHROPIC_BASE_URL",
             PyScalar.vstr (if pyStrip p.base_url = "" then CLAUDE_BASE_URL
                            else pyStrip p.base_url)),
           ("ANTHROPIC_AUTH_TOKEN", PyScalar.vstr (pyStrip p.auth_token)),
           ("ANTHROPIC_DEFAULT_OPUS_MODEL",
             PyScalar.vstr (if pyStrip p.default_opus_model = "" then CLAUDE_OPUS_MODEL
                            else pyStrip p.default_opus_model))])]) },
        WriteResult.ok) := by
  rw [write_claude_ok fs p htok, hflag]
  rfl

theorem load_written_env_flag_true (cc : Option String) (ca : Option PyJson)
    (B T O : String) (q : ClaudeProfile) :
    (load_claude ⟨cc, ca, some (.jobj [("env", .fobj
        [("ANTHROPIC_BASE_URL", PyScalar.vstr B),
         ("ANTHROPIC_AUTH_TOKEN", PyScalar.vstr T),
         ("ANTHROPIC_DEFAULT_OPUS_MODEL", PyScalar.vstr O),
         ("CLAUDE_CODE_DISABLE_NONESSENTIAL_TRAFFIC", PyScalar.vstr "1")])])⟩
      q).1.disable_nonessential_traffic = true := by
  rw [load_claude_flag cc ca
      [("ANTHROPIC_BASE_URL", PyScalar.vstr B),
       ("ANTHROPIC_AUTH_TOKEN", PyScalar.vstr T),
       ("ANTHROPIC_DEFAULT_OPUS_MODEL", PyScalar.vstr O),
       ("CLAUDE_CODE_DISABLE_NONESSENTIAL_TRAFFIC", PyScalar.vstr "1")] q
      (getStrippedScalar_vstr rfl) (getStrippedScalar_vstr rfl) (getStrippedScalar_vstr rfl)]
  rfl

theorem load_written_env_flag_absent (cc : Option String) (ca : Option PyJson)
    (B T O : String) (q : ClaudeProfile) :
    (load_claude ⟨cc, ca, some (.jobj [("env", .fobj
        [("ANTHROPIC_BASE_URL", PyScalar.vstr B),
         ("ANTHROPIC_AUTH_TOKEN", PyScalar.vstr T),
         ("ANTHROPIC_DEFAULT_OPUS_MODEL", PyScalar.vstr O)])])⟩
      q).1.disable_nonessential_traffic = q.disable_nonessential_traffic := by
  rw [load_claude_flag cc ca
      [("ANTHROPIC_BASE_URL", PyScalar.vstr B),
       ("ANTHROPIC_AUTH_TOKEN", PyScalar.vstr T),
       ("ANTHROPIC_DEFAULT_OPUS_MODEL", PyScalar.vstr O)] q
      (getStrippedScalar_vstr rfl) (getStrippedScalar_vstr rfl) (getStrippedScalar_vstr rfl)]
  rfl

/-- C2 counterexample to the claim as stated: the token `" "` is
non-empty, but writing (flag false) is rejected by validation, so the
pre-existing settings file - which still carries the disable key - is
what remains: no settings file without the key is produced. -/
theorem c2_counterexample :
    (write_claude true
        ⟨none, none, some (.jobj [("env", .fobj
          [("CLAUDE_CODE_DISABLE_NONESSENTIAL_TRAFFIC", PyScalar.vstr "1")])])⟩
        ⟨"", " ", "", false⟩).1.claudeConfig
      = some (.jobj [("env", .fobj
          [("CLAUDE_CODE_DISABLE_NONESSENTIAL_TRAFFIC", PyScalar.vstr "1")])]) ∧
    (" " : String) ≠ "" ∧
    (write_claude true
        ⟨none, none, some (.jobj [("env", .fobj
          [("CLAUDE_CODE_DISABLE_NONESSENTIAL_TRAFFIC", PyScalar.vstr "1")])])⟩
        ⟨"", " ", "", false⟩).2 = WriteResult.validationError := by decide

/-- C2 (amended): for every ClaudeProfile whose auth_token is non-empty
after trimming, with confirmation granted: writing with the disable flag
set and loading the result yields the flag true (whatever profile the
load starts from); writing with the flag clear produces a settings file
whose env object omits the disable key entirely (and carries it with
value "1" in the set case), and a subsequent load yields the flag
false. -/
theorem c2_claude_roundtrip (fs : FileSystem) (p q : ClaudeProfile)
    (htok : pyStrip p.auth_token ≠ "") :
    ((load_claude (write_claude true fs
        { p with disable_nonessential_traffic := true }).1 q).1.disable_nonessential_traffic
      = true) ∧
    ((write_claude true fs { p with disable_nonessential_traffic := true }).1.claudeConfig
      = some (.jobj [("env", .fobj
          [("ANTHROPIC_BASE_URL",
             PyScalar.vstr (if pyStrip p.base_url = "" then CLAUDE_BASE_URL
                            else pyStrip p.base_url)),
           ("ANTHROPIC_AUTH_TOKEN", PyScalar.vstr (pyStrip p.auth_token)),
           ("ANTHROPIC_DEFAULT_OPUS_MODEL",
             PyScalar.vstr (if pyStrip p.default_opus_model = "" then CLAUDE_OPUS_MODEL
                            else pyStrip p.default_opus_model)),
           ("CLAUDE_CODE_DISABLE_NONESSENTIAL_TRAFFIC", PyScalar.vstr "1")])])) ∧
    ((write_claude true fs { p with disable_nonessential_traffic := false }).1.claudeConfig
      = some (.jobj [("env", .fobj
          [("ANTHROPIC_BASE_URL",
             PyScalar.vstr (if pyStrip p.base_url = "" then CLAUDE_BASE_URL
                            else pyStrip p.base_url)),
           ("ANTHROPIC_AUTH_TOKEN", PyScalar.vstr (pyStrip p.auth_token)),
           ("ANTHROPIC_DEFAULT_OPUS_MODEL",
             PyScalar.vstr (if pyStrip p.default_opus_model = "" then CLAUDE_OPUS_MODEL
                            else pyStrip p.default_opus_model))])])) ∧
    ((load_claude (write_claude true fs
        { p with disable_nonessential_traffic := false }).1
        { p with disable_nonessential_traffic := false }).1.disable_nonessential_traffic
      = false) := by
  refine ⟨?_, ?_, ?_, ?_⟩
  · exact (congrArg (fun z => (load_claude z.1 q).1.disable_nonessential_traffic)
      (write_claude_flag_true fs { p with disable_nonessential_traffic := true }
        htok rfl)).trans
      (load_written_env_flag_true fs.codexConfig fs.codexAuth _ _ _ q)
  · exact congrArg (fun z => z.1.claudeConfig)
      (write_claude_flag_true fs { p with disable_nonessential_traffic := true } htok rfl)
  · exact congrArg (fun z => z.1.claudeConfig)
      (write_claude_flag_false fs { p with disable_nonessential_traffic := false } htok rfl)
  · exact (congrArg
      (fun z => (load_claude z.1
        { p with disable_nonessential_traffic := false }).1.disable_nonessential_traffic)
      (write_claude_flag_false fs { p with disable_nonessential_traffic := false }
        htok rfl)).trans
      (load_written_env_flag_absent fs.codexConfig fs.codexAuth _ _ _ _)

/-- C2 witness: the set-flag half of the round-trip at a concrete
profile and empty filesystem. -/
theorem c2_claude_roundtrip_witness :
    (load_claude (write_claude true emptyFS ⟨"", "tok", "", true⟩).1
        ⟨"x", "y", "z", false⟩).1.disable_nonessential_traffic = true :=
  (c2_claude_roundtrip emptyFS ⟨"", "tok", "", true⟩ ⟨"x", "y", "z", false⟩ (by decide)).1

/-! ## Claim C6 -/

/-- C6 counterexample to the claim as stated: the disable key is present
in the env object with value `null`; its Python string form `"None"`
trimmed is not `"1"`, so the claim demands the flag become false - but
`dict.get` returns `None` for a null value, the `is not None` guard
fails, and the in-memory flag stays true. -/
theorem c6_counterexample :
    (load_claude
        ⟨none, none, some (.jobj [("env", .fobj
          [("CLAUDE_CODE_DISABLE_NONESSENTIAL_TRAFFIC", PyScalar.vnull)])])⟩
        ⟨"b", "t", "o", true⟩).1.disable_nonessential_traffic = true ∧
      pyStrip (pyStr PyScalar.vnull) ≠ "1" := by decide

/-- C6 (amended): provided the three string fields of the env object load
without raising, the disable flag is set to `str(value).strip() == "1"`
for every key value that `dict.get` returns (i.e. every present non-null
value) - so `"0"` and `"true"` load as false and only `"1"` as true -
while an absent key (or a JSON null value, which `dict.get` also reports
as `None`) leaves the in-memory flag unchanged. -/
theorem c6_disable_parse (cc : Option String) (ca : Option PyJson)
    (env : List (String × PyScalar)) (p : ClaudeProfile)
    (h1 : ∃ x, getStrippedScalar env "ANTHROPIC_BASE_URL" = some x)
    (h2 : ∃ x, getStrippedScalar env "ANTHROPIC_AUTH_TOKEN" = some x)
    (h3 : ∃ x, getStrippedScalar env "ANTHROPIC_DEFAULT_OPUS_MODEL" = some x) :
    (∀ v, pyGetScalar env "CLAUDE_CODE_DISABLE_NONESSENTIAL_TRAFFIC" = some v →
      (load_claude ⟨cc, ca, some (.jobj [("env", .fobj env)])⟩
          p).1.disable_nonessential_traffic
        = (pyStrip (pyStr v) == "1")) ∧
    (pyGetScalar env "CLAUDE_CODE_DISABLE_NONESSENTIAL_TRAFFIC" = none →
      (load_claude ⟨cc, ca, some (.jobj [("env", .fobj env)])⟩
          p).1.disable_nonessential_traffic
        = p.disable_nonessential_traffic) := by
  constructor
  · intro v hv
    rw [load_claude_flag cc ca env p h1 h2 h3, hv]
  · intro hv
    rw [load_claude_flag cc ca env p h1 h2 h3, hv]

/-- C6 witness: a present `"0"` parses to false (its trimmed string form
is not `"1"`). -/
theorem c6_disable_parse_witness :
    (load_claude
        ⟨none, none, some (.jobj [("env", .fobj
          [("CLAUDE_CODE_DISABLE_NONESSENTIAL_TRAFFIC", PyScalar.vstr "0")])])⟩
        ⟨"b", "t", "o", true⟩).1.disable_nonessential_traffic
      = (pyStrip (pyStr (PyScalar.vstr "0")) == "1") :=
  (c6_disable_parse none none
      [("CLAUDE_CODE_DISABLE_NONESSENTIAL_TRAFFIC", PyScalar.vstr "0")]
      ⟨"b", "t", "o", true⟩ ⟨"", rfl⟩ ⟨"", rfl⟩ ⟨"", rfl⟩).1
    (PyScalar.vstr "0") rfl

/-! ## Claim C10 -/

/-- C10: both writers trim the credential before validation and before
writing: a whitespace-only api_key (resp. auth_token), or an api_key that
is `"sk-"` surrounded by whitespace, is rejected as a validation error
with the filesystem untouched; and whenever a write succeeds, the
credential stored on disk has no leading or trailing whitespace. -/
theorem c10_trim :
    (∀ (cp co : Bool) (fs : FileSystem) (p : CodexProfile),
      ((∀ c ∈ p.api_key.data, isPySpace c = true) ∨
        (∃ w1 w2 : List Char, (∀ c ∈ w1, isPySpace c = true) ∧
          (∀ c ∈ w2, isPySpace c = true) ∧
          p.api_key.data = w1 ++ "sk-".data ++ w2)) →
      write_codex cp co fs p = (fs, WriteResult.validationError)) ∧
    (∀ (c : Bool) (fs : FileSystem) (p : ClaudeProfile),
      (∀ ch ∈ p.auth_token.data, isPySpace ch = true) →
      write_claude c fs p = (fs, WriteResult.validationError)) ∧
    (∀ (cp co : Bool) (fs fs2 : FileSystem) (p : CodexProfile),
      write_codex cp co fs p = (fs2, WriteResult.ok) →
      ∃ k, fs2.codexAuth = some (.jobj [("OPENAI_API_KEY", .fscalar (.vstr k))]) ∧
        NoEdgeWs k) ∧
    (∀ (c : Bool) (fs fs2 : FileSystem) (p : ClaudeProfile),
      write_claude c fs p = (fs2, WriteResult.ok) →
      ∃ (env : List (String × PyScalar)) (t : String),
        fs2.claudeConfig = some (.jobj [("env", .fobj env)]) ∧
        env.lookup "ANTHROPIC_AUTH_TOKEN" = some (.vstr t) ∧ NoEdgeWs t) := by
  refine ⟨?_, ?_, ?_, ?_⟩
  · intro cp co fs p h
    unfold write_codex
    rcases h with h | ⟨w1, w2, hw1, hw2, hsk⟩
    · rw [if_pos (Or.inl (pyStrip_all_space h))]
    · have hs : pyStrip p.api_key = "sk-" :=
        pyStrip_sandwich hw1 hw2 (by decide) (by decide) hsk
      rw [hs, if_pos (Or.inr rfl)]
  · intro c fs p h
    unfold write_claude
    rw [if_pos (pyStrip_all_space h)]
  · intro cp co fs fs2 p h
    unfold write_codex at h
    by_cases h1 : pyStrip p.api_key = "" ∨ pyStrip p.api_key = "sk-"
    · rw [if_pos h1] at h
      simp at h
    · rw [if_neg h1] at h
      by_cases h2 : ¬ startsWithSk (pyStrip p.api_key) ∧ ¬ cp
      · rw [if_pos h2] at h
        simp at h
      · rw [if_neg h2] at h
        by_cases h3 : (fs.codexConfig.isSome ∨ fs.codexAuth.isSome) ∧ ¬ co
        · rw [if_pos h3] at h
          simp at h
        · rw [if_neg h3] at h
          refine ⟨pyStrip p.api_key, ?_, pyStrip_noEdgeWs _⟩
          exact (congrArg (fun z => z.1.codexAuth) h).symm
  · intro c fs fs2 p h
    unfold write_claude at h
    by_cases h1 : pyStrip p.auth_token = ""
    · rw [if_pos h1] at h
      simp at h
    · rw [if_neg h1] at h
      by_cases h2 : fs.claudeConfig.isSome ∧ ¬ c
      · rw [if_pos h2] at h
        simp at h
      · rw [if_neg h2] at h
        refine ⟨_, pyStrip p.auth_token, (congrArg (fun z => z.1.claudeConfig) h).symm,
          ?_, pyStrip_noEdgeWs _⟩
        rfl

/-- C10 witness: the whitespace-padded `"sk-"` is rejected before any
write. -/
theorem c10_trim_witness :
    write_codex true true emptyFS ⟨"u", "m", "r", "v", "  sk-  "⟩
      = (emptyFS, WriteResult.validationError) :=
  c10_trim.1 true true emptyFS ⟨"u", "m", "r", "v", "  sk-  "⟩
    (Or.inr ⟨[' ', ' '], [' ', ' '], by decide, by decide, by decide⟩)

/-! ## Claim C8 -/

/-- `s` begins at a line start of `cs`: at the very beginning or right
after some newline (the anchors of `^` under `re.MULTILINE`). -/
def IsLineStartSuffix (cs s : List Char) : Prop :=
  s = cs ∨ ∃ pre, cs = pre ++ '\n' :: s

/-- `str.splitlines`-style decomposition used only to state what "a line
of the file" is. -/
def splitLines : List Char → List (List Char)
  | [] => [[]]
  | c :: rest =>
    if c = '\n' then [] :: splitLines rest
    else
      match splitLines rest with
      | l :: ls => (c :: l) :: ls
      | [] => [[c]]

/-- Modelled from the claim wording: a single line of the exact shape
`key = "value"` with leading/trailing whitespace tolerated and a value
containing no double quote. -/
def specLineMatch (key line : String) : Option String :=
  match stripPrefixChars key.data (line.data.dropWhile isPySpace) with
  | none => none
  | some cs1 =>
    match cs1.dropWhile isPySpace with
    | '=' :: cs2 =>
      match cs2.dropWhile isPySpace with
      | '"' :: cs3 =>
        match cs3.dropWhile (fun c => c != '"') with
        | _ :: rest =>
          if rest.all isPySpace then some (String.mk (cs3.takeWhile fun c => c != '"'))
          else none
        | [] => none
      | _ => none
    | _ => none

theorem matchKeyAt_quoteFree {key cs v : List Char} (h : matchKeyAt key cs = some v) :
    ∀ c ∈ v, (c != '"') = true := by
  unfold matchKeyAt at h
  split at h
  · exact absurd h (by simp)
  · split at h
    · split at h
      · unfold parseQuoted at h
        split at h
        · split at h
          · have hv := Option.some.inj h
            intro c hc
            rw [← hv] at hc
            exact List.mem_takeWhile_imp (p := fun d => d != '"') hc
          · exact absurd h (by simp)
        · exact absurd h (by simp)
      · exact absurd h (by simp)
    · exact absurd h (by simp)

theorem tomlGoAux_lineStart {key : List Char} (l : List Char) :
    ∀ v, tomlGoAux key l = some v →
      ∃ pre s, l = pre ++ '\n' :: s ∧ matchKeyAt key s = some v := by
  induction l with
  | nil =>
    intro v h
    simp [tomlGoAux] at h
  | cons c rest ih =>
    intro v h
    rw [tomlGoAux] at h
    by_cases hc : c = '\n'
    · rw [if_pos hc] at h
      cases hm : matchKeyAt key rest with
      | some w =>
        rw [hm] at h
        exact ⟨[], rest, by rw [hc]; rfl, by rw [hm, Option.some.inj h]⟩
      | none =>
        rw [hm] at h
        obtain ⟨pre, s, he, hmk⟩ := ih v h
        exact ⟨c :: pre, s, by rw [he]; rfl, hmk⟩
    · rw [if_neg hc] at h
      obtain ⟨pre, s, he, hmk⟩ := ih v h
      exact ⟨c :: pre, s, by rw [he]; rfl, hmk⟩

theorem tomlSearch_lineStart {key cs v : List Char} (h : tomlSearch key cs = some v) :
    ∃ s, IsLineStartSuffix cs s ∧ matchKeyAt key s = some v := by
  unfold tomlSearch at h
  cases hm : matchKeyAt key cs with
  | some w =>
    rw [hm] at h
    exact ⟨cs, Or.inl rfl, hm.trans h⟩
  | none =>
    rw [hm] at h
    obtain ⟨pre, s, he, hmk⟩ := tomlGoAux_lineStart cs v h
    exact ⟨s, Or.inr ⟨pre, he⟩, hmk⟩

/-- C8 counterexample to the claim as stated: in the two-line file
`model{newline}= "x"` no single line has the exact `key = "value"` shape,
yet `load_codex` extracts `"x"` for `model` - the regex whitespace and
value classes cross the newline. -/
theorem c8_counterexample :
    (load_codex ⟨some "model\n= \"x\"", none, none⟩ ⟨"b", "m0", "r", "v", "k"⟩).1.model = "x"
      ∧ ((splitLines ("model\n= \"x\"" : String).data).all
          (fun l => (specLineMatch "model" (String.mk l)).isNone)) = true := by decide

/-- C8 (amended): `load_codex` extracts a field only via a `_toml_get`
match that begins at a line start (start of text or just after a newline)
and whose captured value contains no double quote (the whitespace around
the key and equals sign, and the value itself, may span line breaks);
any key with no match, and any matched empty value, leaves the in-memory
field at its prior value. -/
theorem c8_toml_extraction (text key cur : String) :
    (toml_get text key = none → applyTomlField text key cur = cur) ∧
    (toml_get text key = some "" → applyTomlField text key cur = cur) ∧
    (∀ v, toml_get text key = some v →
      (∀ c ∈ v.data, (c != '"') = true) ∧
      ∃ s, IsLineStartSuffix text.data s ∧ matchKeyAt key.data s = some v.data) := by
  refine ⟨fun h => applyTomlField_keep cur (Or.inl h),
    fun h => applyTomlField_keep cur (Or.inr h), ?_⟩
  intro v hv
  unfold toml_get at hv
  cases hw : tomlSearch key.data text.data with
  | none =>
    rw [hw] at hv
    exact absurd hv (by simp)
  | some w =>
    rw [hw] at hv
    have hvw : String.mk w = v := by
      simpa using hv
    obtain ⟨s, hs, hm⟩ := tomlSearch_lineStart hw
    subst hvw
    exact ⟨fun c hc => matchKeyAt_quoteFree hm c hc, s, hs, hm⟩

/-- C8 witness: a key with no match keeps the prior value. -/
theorem c8_toml_extraction_witness :
    applyTomlField "nothing to see" "model" "keep" = "keep" :=
  (c8_toml_extraction "nothing to see" "model" "keep").1 (by decide)
